import Mathlib

/-!
Verification development for the SmartOllamaProxy request-path engine.

The Python source is shallowly embedded: JSON/dict values become the
inductive type `J`; stateful methods become explicit state-passing
functions; Python exceptions become `Except`/error constructors.
Each embedded definition names the source file and function it models.
-/

set_option autoImplicit false

/-- JSON-like values (Python dicts, lists, strings, numbers, booleans, None).
Arrays and objects are encoded as cons-chains so that all functions are
structurally recursive and evaluate definitionally. `objCons k v tl` is a
dict whose first key is `k`; Python dicts preserve insertion order, which
the chain encodes directly. -/
inductive J where
  | s (v : String)
  | n (v : Int)
  | b (v : Bool)
  | null
  | arrNil
  | arrCons (hd tl : J)
  | objNil
  | objCons (key : String) (val tl : J)
  deriving Repr, DecidableEq

/-- Build an array value from a Lean list. -/
def J.arrOf : List J → J
  | [] => .arrNil
  | x :: xs => .arrCons x (J.arrOf xs)

/-- Build an object value from a key/value list. -/
def J.objOf : List (String × J) → J
  | [] => .objNil
  | (k, v) :: xs => .objCons k v (J.objOf xs)

/-- The elements of an array value as a Lean list (non-arrays give `[]`). -/
def jarrToList : J → List J
  | .arrCons h t => h :: jarrToList t
  | _ => []

/-- Python `d.get(k)` / `k in d`: first binding of `k` in an object value. -/
def jget : J → String → Option J
  | .objCons k v tl, key => if k = key then some v else jget tl key
  | _, _ => none

/-- Python `d.get(k, dflt)`. -/
def jgetD (o : J) (key : String) (dflt : J) : J :=
  (jget o key).getD dflt

/-- Python truthiness of a value (`if not x`). -/
def jTruthy : J → Bool
  | .s v => v ≠ ""
  | .n v => v ≠ 0
  | .b v => v
  | .null => false
  | .arrNil => false
  | .arrCons _ _ => true
  | .objNil => false
  | .objCons _ _ _ => true

/-- Python `d[k] = v` on a dict: replace the existing binding in place,
or append a new one; non-objects are returned unchanged. -/
def jset : J → String → J → J
  | .objCons k v tl, key, newV =>
      if k = key then .objCons k newV tl else .objCons k v (jset tl key newV)
  | .objNil, key, newV => .objCons key newV .objNil
  | other, _, _ => other

/-- The last element of an array value (Python `lst[-1]`). -/
def jarrLast : J → Option J
  | .arrCons h .arrNil => some h
  | .arrCons _ (.arrCons h t) => jarrLast (.arrCons h t)
  | _ => none

/-- Replace the last element of an array value. -/
def jarrSetLast : J → J → J
  | .arrCons _ .arrNil, newV => .arrCons newV .arrNil
  | .arrCons h (.arrCons h2 t), newV => .arrCons h (jarrSetLast (.arrCons h2 t) newV)
  | other, _ => other

/-- Replace-first-or-append update of an association list
(the behaviour of Python dict assignment on our map embeddings). -/
def assocSet {κ α : Type} [DecidableEq κ] : List (κ × α) → κ → α → List (κ × α)
  | [], k, v => [(k, v)]
  | (k', v') :: rest, k, v =>
      if k' = k then (k, v) :: rest else (k', v') :: assocSet rest k v

/-- Lookup in an association list (first binding wins, like a Python dict). -/
def assocGet {κ α : Type} [DecidableEq κ] : List (κ × α) → κ → Option α
  | [], _ => none
  | (k', v') :: rest, k => if k' = k then some v' else assocGet rest k

/-- Remove the binding of a key (Python `del d[k]` / `d.pop(k, None)`). -/
def assocErase {κ α : Type} [DecidableEq κ] : List (κ × α) → κ → List (κ × α)
  | [], _ => []
  | (k', v') :: rest, k => if k' = k then rest else (k', v') :: assocErase rest k

/-! ## Response conversion (src/routers/openai_router.py, OpenAIBackendRouter.convert_to_ollama_format)

Python errors raised during the conversion are modelled explicitly. -/

inductive PyErr where
  | keyError (k : String)
  | indexError
  | typeError
  deriving Repr, DecidableEq

namespace OpenAIRouter

/-- src/routers/openai_router.py lines 402-423,
`OpenAIBackendRouter.convert_to_ollama_format`, restricted to the
dict-shaped input branch (`isinstance(response_data, dict)`).
The code computes
`{"model": virtual_model, "response": openai_result["choices"][0]["message"]["content"],
  "done": True, "total_duration": openai_result.get("usage", {}).get("total_tokens", 0) * 50_000_000}`;
the subscript lookups raise `KeyError`/`IndexError` when missing. -/
def convert_to_ollama_format (resp : J) (virtualModel : String) : Except PyErr J :=
  match resp with
  | .objCons _ _ _ | .objNil =>
    match jget resp "choices" with
    | none => .error (.keyError "choices")
    | some choices =>
      match choices with
      | .arrNil => .error .indexError
      | .arrCons c0 _ =>
        match jget c0 "message" with
        | none => .error (.keyError "message")
        | some msg =>
          match jget msg "content" with
          | none => .error (.keyError "content")
          | some content =>
            -- openai_result.get("usage", {}).get("total_tokens", 0)
            let totalTokens : Except PyErr Int :=
              match jget resp "usage" with
              | none => .ok 0
              | some (.objCons k v tl) =>
                  match jget (.objCons k v tl) "total_tokens" with
                  | none => .ok 0
                  | some (.n t) => .ok t
                  | some _ => .error .typeError
              | some .objNil => .ok 0
              | some _ => .error .typeError
            match totalTokens with
            | .error e => .error e
            | .ok t =>
              .ok (J.objOf
                [("model", .s virtualModel),
                 ("response", content),
                 ("done", .b true),
                 ("total_duration", .n (t * 50000000))])
      | _ => .error .typeError
  | _ => .error .typeError

end OpenAIRouter

/-! ## Per-router caches and request optimizers

Two implementations exist in the repository:
- `src/routers/base_router.py` (`BaseRouter` namespace below) — the class the
  active routers inherit from (`main.py` imports the `routers` package, which
  shadows the legacy `routers.py` module);
- `src/routers.py` (`RoutersPy` namespace below) — the legacy module.

MD5 hashes stored by the caches (`tools_hash`, `benchmark_hash`) are modelled
by the hashed value itself: the code only ever compares hashes of values for
equality, and MD5 is injective on the inputs considered here. -/

/-- One entry of a tools cache: `(tools_hash, compressed_tools, timestamp)`. -/
structure ToolsEntry where
  toolsHash : J
  compressed : J
  timestamp : Nat
  deriving Repr, DecidableEq

/-- One entry of a prompt cache: `benchmark_hash`/`benchmark_content`/`timestamp`
(the hash is modelled by the content). -/
structure PromptEntry where
  benchmarkContent : String
  timestamp : Nat
  deriving Repr, DecidableEq

/-- Stable ascending insertion used to model Python `sorted(..., key=timestamp)`. -/
def insertByKey {α : Type} (ts : α → Nat) (x : α) : List α → List α
  | [] => [x]
  | y :: ys => if ts y ≤ ts x then y :: insertByKey ts x ys else x :: y :: ys

/-- Stable ascending sort by a `Nat` key (Python `sorted` is stable). -/
def sortByKey {α : Type} (ts : α → Nat) (l : List α) : List α :=
  l.foldl (fun acc x => insertByKey ts x acc) []

namespace BaseRouter

/-- Cache of `src/routers/base_router.py`:
`_tools_cache : session_id -> (tools_hash, compressed_tools, timestamp)`,
with the cleanup bookkeeping `_last_tools_cleanup`.
Session ids are raw request values, hence keys of type `J`. -/
structure ToolsCacheState where
  entries : List (J × ToolsEntry)
  lastCleanup : Nat
  deriving Repr, DecidableEq

/-- `_prompt_cache` of `src/routers/base_router.py` plus `_last_prompt_cleanup`. -/
structure PromptCacheState where
  entries : List (J × PromptEntry)
  lastCleanup : Nat
  deriving Repr, DecidableEq

/-- `src/routers/base_router.py` line 85 and line 187:
`session_id = request_data.get("session_id", "default")`. -/
def session_key (req : J) : J :=
  jgetD req "session_id" (J.s "default")

/-- The signature computed by `BackendRouter._compress_tools`
(src/routers/base_router.py lines 120-126):
`json.dumps({"name": tool.get("function", {}).get("name", ""),
             "parameters": tool.get("function", {}).get("parameters", {})}, sort_keys=True)`.
The dumped string is modelled by the value it serialises. -/
def toolSig (tool : J) : J :=
  let f := (jget tool "function").getD J.objNil
  J.objOf [("name", (jget f "name").getD (J.s "")),
           ("parameters", (jget f "parameters").getD J.objNil)]

/-- Loop of `BackendRouter._compress_tools` (src/routers/base_router.py
lines 115-135): keep a tool unchanged unless a tool with the same signature
was already seen. -/
def compress_tools_go (seen : List J) : List J → List J
  | [] => []
  | t :: ts =>
      let sg := toolSig t
      if sg ∈ seen then compress_tools_go seen ts
      else t :: compress_tools_go (sg :: seen) ts

/-- `BackendRouter._compress_tools` of src/routers/base_router.py
(lines 115-135): deduplication only, every kept element is returned as-is. -/
def compress_tools (tools : List J) : List J :=
  compress_tools_go [] tools

/-- `BackendRouter._cleanup_tools_cache` (src/routers/base_router.py
lines 137-172) with `force=False`: gated by size > 100 or 30 s since the
last cleanup; drops entries idle for >= 300 s, then trims the oldest
entries down to 100. -/
def cleanup_tools_cache (now : Nat) (st : ToolsCacheState) : ToolsCacheState :=
  let needsCleanup := st.entries.length > 100
  if !needsCleanup && now - st.lastCleanup < 30 then st
  else
    let kept := st.entries.filter (fun kv => decide (now - kv.2.timestamp < 300))
    let kept2 :=
      if kept.length > 100 then
        let sorted := sortByKey (fun kv => kv.2.timestamp) kept
        let toRemove := (sorted.take (kept.length - 100)).map Prod.fst
        kept.filter (fun kv => !(toRemove.contains kv.1))
      else kept
    { entries := kept2, lastCleanup := now }

/-- `BackendRouter._optimize_tools_in_request` (src/routers/base_router.py
lines 72-113). Returns the (possibly updated) request together with the new
cache state. The request is only ever changed by the assignment
`request_data["tools"] = compressed_tools`. -/
def optimize_tools_in_request (enabled : Bool) (now : Nat)
    (st : ToolsCacheState) (req : J) : J × ToolsCacheState :=
  if !enabled then (req, st)
  else
    match jget req "tools" with
    | none => (req, st)
    | some tools =>
      if !(jTruthy tools) then (req, st)
      else
        let sid := session_key req
        let toolsHash := tools
        let hit : Option J :=
          match assocGet st.entries sid with
          | some e =>
              if now - e.timestamp < 300 && toolsHash = e.toolsHash then some e.compressed
              else none
          | none => none
        match hit with
        | some comp => (jset req "tools" comp, st)
        | none =>
          let comp := J.arrOf (compress_tools (jarrToList tools))
          let st1 : ToolsCacheState :=
            { entries := assocSet st.entries sid ⟨toolsHash, comp, now⟩,
              lastCleanup := st.lastCleanup }
          (jset req "tools" comp, cleanup_tools_cache now st1)

/-- `BackendRouter._cleanup_prompt_cache` (src/routers/base_router.py
lines 229-264) with `force=False`; same policy as the tools cleanup. -/
def cleanup_prompt_cache (now : Nat) (st : PromptCacheState) : PromptCacheState :=
  let needsCleanup := st.entries.length > 100
  if !needsCleanup && now - st.lastCleanup < 30 then st
  else
    let kept := st.entries.filter (fun kv => decide (now - kv.2.timestamp < 300))
    let kept2 :=
      if kept.length > 100 then
        let sorted := sortByKey (fun kv => kv.2.timestamp) kept
        let toRemove := (sorted.take (kept.length - 100)).map Prod.fst
        kept.filter (fun kv => !(toRemove.contains kv.1))
      else kept
    { entries := kept2, lastCleanup := now }

/-- `BackendRouter._optimize_prompt` of src/routers/base_router.py
(lines 174-227). This version never rewrites any message: it reads the
first message when its role is `"system"`, caches that content per session,
and returns `request_data` unchanged on every path. -/
def optimize_prompt (enabled : Bool) (now : Nat)
    (st : PromptCacheState) (req : J) : J × PromptCacheState :=
  if !enabled then (req, st)
  else
    match jget req "messages" with
    | none => (req, st)
    | some msgs =>
      if !(jTruthy msgs) then (req, st)
      else
        let sid := session_key req
        match msgs with
        | .arrCons first _ =>
          if jget first "role" ≠ some (J.s "system") then (req, st)
          else
            -- benchmark_content = benchmark_message.get("content", "")
            match jget first "content" with
            | some (J.s c) =>
              if c = "" then (req, st)
              else
                let hit : Bool :=
                  match assocGet st.entries sid with
                  | some e => now - e.timestamp < 300 && e.benchmarkContent = c
                  | none => false
                if hit then (req, st)
                else
                  let st1 : PromptCacheState :=
                    { entries := assocSet st.entries sid ⟨c, now⟩,
                      lastCleanup := st.lastCleanup }
                  (req, cleanup_prompt_cache now st1)
            | _ => (req, st) -- absent / non-string content: falsy or outside the shapes reaching this code
        | _ => (req, st) -- truthy non-list `messages` would raise in Python; not a shape the claims use

end BaseRouter

namespace RoutersPy

/-- `_prompt_cache` of the legacy src/routers.py router, with
`_last_cache_cleanup`. Keys are the session-id strings produced by
`_extract_session_id`. -/
structure PromptCacheState where
  entries : List (String × PromptEntry)
  lastCleanup : Nat
  deriving Repr, DecidableEq

/-- `BackendRouter._extract_session_id` (src/routers.py lines 86-106):
the first message's content hashed (`MD5(content[:100])[:8]`) gives
`session_<h>`; otherwise `temp_<ms_timestamp>_<rand4>`. The MD5-hex prefix
is abstracted as the function argument `md5hex8`; `nowMs`/`rand4` stand for
`int(time.time()*1000)` and `random.randint(1000, 9999)`. -/
def extract_session_id (md5hex8 : String → String) (nowMs rand4 : Nat) (req : J) : String :=
  let temp := "temp_" ++ toString nowMs ++ "_" ++ toString rand4
  match jget req "messages" with
  | some (J.arrCons first _) =>
      (match jget first "content" with
       | some (J.s c) => if c = "" then temp else "session_" ++ md5hex8 (c.take 100)
       | _ => temp)
  | _ => temp

/-- `BackendRouter._find_common_prefix` (src/routers.py lines 210-216). -/
def findCommonPfx (s1 s2 : String) : String :=
  String.mk (go s1.data s2.data)
where
  go : List Char → List Char → List Char
    | a :: as, b :: bs => if a = b then a :: go as bs else []
    | _, _ => []

/-- `BackendRouter._cleanup_prompt_cache` (src/routers.py lines 218-249):
gated on 300 s since the last cleanup; TTL 3600 s; when still above
`_max_cache_size = 200`, the oldest 100 entries are removed. -/
def cleanup_prompt_cache (now : Nat) (st : PromptCacheState) : PromptCacheState :=
  if now - st.lastCleanup > 300 then
    let kept := st.entries.filter (fun kv => decide (now - kv.2.timestamp ≤ 3600))
    let kept2 :=
      if kept.length > 200 then
        let sorted := sortByKey (fun kv => kv.2.timestamp) kept
        let toRemove := (sorted.take 100).map Prod.fst
        kept.filter (fun kv => !(toRemove.contains kv.1))
      else kept
    { entries := kept2, lastCleanup := now }
  else st

/-- `BackendRouter._optimize_prompt` of the legacy src/routers.py
(lines 108-208): per-session benchmark of the last user message; common
prefixes of length >= 50 are replaced by the sentinel
`<开头{prefix[:30]}....末尾{prefix[-30:]}>`; shorter common prefixes install
the new content as benchmark; identical content only refreshes the
timestamp. -/
def optimize_prompt (enabled : Bool) (md5hex8 : String → String)
    (nowMs rand4 now : Nat) (st : PromptCacheState) (req : J) : J × PromptCacheState :=
  if !enabled then (req, st)
  else
    let sid := extract_session_id md5hex8 nowMs rand4 req
    match jget req "messages" with
    | none => (req, st)
    | some msgs =>
      if !(jTruthy msgs) then (req, st)
      else
        match jarrLast msgs with
        | none => (req, st) -- truthy non-list `messages` would raise in Python; not a shape the claims use
        | some lastMsg =>
          if jget lastMsg "role" ≠ some (J.s "user") then (req, st)
          else
            match jget lastMsg "content" with
            | some (J.s c) =>
              if c = "" then (req, st)
              else
                (match assocGet st.entries sid with
                 | none =>
                     (req, { entries := assocSet st.entries sid ⟨c, now⟩,
                             lastCleanup := st.lastCleanup })
                 | some e =>
                     if c = e.benchmarkContent then
                       -- identical content: only the timestamp is refreshed
                       (req, { entries := assocSet st.entries sid ⟨e.benchmarkContent, now⟩,
                               lastCleanup := st.lastCleanup })
                     else
                       let p := findCommonPfx e.benchmarkContent c
                       if 50 ≤ p.length then
                         let newContent :=
                           "<开头" ++ p.take 30 ++ "....末尾" ++ p.drop (p.length - 30) ++ ">"
                             ++ c.drop p.length
                         let msgs' := jarrSetLast msgs (jset lastMsg "content" (J.s newContent))
                         let st1 : PromptCacheState :=
                           { entries := assocSet st.entries sid ⟨e.benchmarkContent, now⟩,
                             lastCleanup := st.lastCleanup }
                         (jset req "messages" msgs', cleanup_prompt_cache now st1)
                       else
                         let st1 : PromptCacheState :=
                           { entries := assocSet st.entries sid ⟨c, now⟩,
                             lastCleanup := st.lastCleanup }
                         (req, cleanup_prompt_cache now st1))
            | _ => (req, st) -- absent / non-string content: falsy or raises in Python

/-- Truncation helper for the legacy `_compress_tools`: Python
`value[:k]` applied to the string fields the claims exercise
(absent fields default to `""`). -/
def jStrTrunc (v : Option J) (k : Nat) : J :=
  match v with
  | some (J.s str) => J.s (str.take k)
  | some other => other -- non-string values are outside the shapes the claims use
  | none => J.s ""

/-- Python `lst[:k]` on an array value. -/
def jarrTake : Nat → J → J
  | 0, _ => .arrNil
  | _, .arrNil => .arrNil
  | Nat.succ k, .arrCons h t => .arrCons h (jarrTake k t)
  | _, _ => .arrNil

/-- `description` field of the legacy compressed function:
`func.get("description", "")[:100] if func.get("description") else ""`. -/
def legacyDesc (f : J) : J :=
  match jget f "description" with
  | some (J.s d) => J.s (d.take 100) -- an empty string is falsy, and take-100 of it is "" as well
  | _ => J.s ""

/-- One tool under `BackendRouter._compress_tools` of the legacy
src/routers.py (lines 300-340): keep `type` and a 50-char `name`; for
`function` tools also keep `function.name` (50 chars),
`function.description` (100 chars) and `parameters` reduced to
`{type, properties: {}, required: required[:5]}`. Non-dict tools are kept
unchanged. -/
def compress_tool (tool : J) : J :=
  match tool with
  | .objCons _ _ _ | .objNil =>
    let baseFields : List (String × J) :=
      [("type", jgetD tool "type" (J.s "")),
       ("name", jStrTrunc (jget tool "name") 50)]
    if jget tool "type" = some (J.s "function") then
      match jget tool "function" with
      | some f =>
        let paramsPart : List (String × J) :=
          match jget f "parameters" with
          | none => []
          | some p =>
            match p with
            | .objCons _ _ _ | .objNil =>
              let requiredPart : List (String × J) :=
                match jget p "required" with
                | some (J.arrCons h t) => [("required", jarrTake 5 (J.arrCons h t))]
                | some J.arrNil => [("required", J.arrNil)]
                | _ => []
              [("parameters", J.objOf
                 ([("type", jgetD p "type" (J.s "object")),
                   ("properties", J.objNil)] ++ requiredPart))]
            | other => [("parameters", other)]
        J.objOf (baseFields ++
          [("function", J.objOf
             ([("name", jStrTrunc (jget f "name") 50),
               ("description", legacyDesc f)] ++ paramsPart))])
      | none => J.objOf baseFields
    else J.objOf baseFields
  | other => other

/-- `BackendRouter._compress_tools` of the legacy src/routers.py
(lines 300-340): element-wise truncation, no deduplication. -/
def compress_tools (tools : List J) : List J :=
  tools.map compress_tool

end RoutersPy

/-! ## HTTP client pool (src/client_pool.py) -/

namespace ClientPool

/-- Python `base_url.rstrip('/')`. -/
def rstripSlash (sUrl : String) : String :=
  String.mk ((sUrl.data.reverse.dropWhile (· = '/')).reverse)

/-- Pool key `(base_url.rstrip('/'), api_key, compression)`
(src/client_pool.py line 70). -/
structure PoolKey where
  baseUrl : String
  apiKey : Option String
  compression : Bool
  deriving Repr, DecidableEq

/-- The mutable maps of the pool singleton (`_clients`, `_ref_counts`,
`_last_used`). Client objects are identified by the `Nat` id they were
created with; `nextClientId` supplies fresh ids, and `closed` records every
client on which `aclose()` has been called. -/
structure PoolState where
  clients : List (PoolKey × Nat)
  refCounts : List (PoolKey × Nat)
  lastUsed : List (PoolKey × Nat)
  nextClientId : Nat
  closed : List Nat
  deriving Repr, DecidableEq

/-- Result of one `get_client` call: the returned client, whether a
health-check HEAD was issued during the call, and the state afterwards. -/
structure AcquireResult where
  client : Nat
  headIssued : Bool
  state : PoolState
  deriving Repr, DecidableEq

/-- The client-creation tail of `get_client` (src/client_pool.py
lines 114-141). -/
def createClient (st : PoolState) (key : PoolKey) (now : Nat) (headIssued : Bool) :
    AcquireResult :=
  { client := st.nextClientId,
    headIssued := headIssued,
    state :=
      { clients := assocSet st.clients key st.nextClientId,
        refCounts := assocSet st.refCounts key 1,
        lastUsed := assocSet st.lastUsed key now,
        nextClientId := st.nextClientId + 1,
        closed := st.closed } }

/-- `ClientPool.get_client` (src/client_pool.py lines 43-141).
`now` is `time.time()`; `headOk` is the outcome of the health-check HEAD
when one is issued (`HEALTH_CHECK_THRESHOLD = 30`). On a cache hit with
idle age > 30 s a HEAD is issued; if it fails the cached client is closed,
removed, and a brand-new client is created. -/
def get_client (st : PoolState) (baseUrl : String) (apiKey : Option String)
    (compression : Bool) (now : Nat) (headOk : Bool) : AcquireResult :=
  let key : PoolKey := ⟨rstripSlash baseUrl, apiKey, compression⟩
  match assocGet st.clients key with
  | some c =>
    let last := (assocGet st.lastUsed key).getD 0
    if now - last > 30 then
      if headOk then
        { client := c, headIssued := true,
          state :=
            { st with
              refCounts := assocSet st.refCounts key (((assocGet st.refCounts key).getD 0) + 1),
              lastUsed := assocSet st.lastUsed key now } }
      else
        let st1 : PoolState :=
          { clients := assocErase st.clients key,
            refCounts := assocErase st.refCounts key,
            lastUsed := assocErase st.lastUsed key,
            nextClientId := st.nextClientId,
            closed := c :: st.closed }
        createClient st1 key now true
    else
      { client := c, headIssued := false,
        state :=
          { st with
            refCounts := assocSet st.refCounts key (((assocGet st.refCounts key).getD 0) + 1),
            lastUsed := assocSet st.lastUsed key now } }
  | none => createClient st key now false

/-- A `ClientPool` Python object: identity plus the instance attributes
set by `__init__`. -/
structure PoolObj where
  objId : Nat
  initialized : Bool
  clients : List (PoolKey × Nat)
  refCounts : List (PoolKey × Nat)
  lastUsed : List (PoolKey × Nat)
  deriving Repr, DecidableEq

/-- The module-level globals relevant to the singleton:
`ClientPool._instance` and an id supply for newly allocated objects. -/
structure PyGlobals where
  instanceSlot : Option PoolObj
  nextObjId : Nat
  deriving Repr, DecidableEq

/-- `ClientPool.__new__` (src/client_pool.py lines 29-33): allocate an
object with `_initialized = False` only when `_instance` is `None`;
always return `_instance`. -/
def pyNew (g : PyGlobals) : PyGlobals × PoolObj :=
  match g.instanceSlot with
  | some o => (g, o)
  | none =>
      let o : PoolObj :=
        { objId := g.nextObjId, initialized := false,
          clients := [], refCounts := [], lastUsed := [] }
      ({ instanceSlot := some o, nextObjId := g.nextObjId + 1 }, o)

/-- `ClientPool.__init__` (src/client_pool.py lines 35-41): reset the maps
only when `_initialized` is still false. -/
def pyInit (o : PoolObj) : PoolObj :=
  if o.initialized then o
  else { o with clients := [], refCounts := [], lastUsed := [], initialized := true }

/-- A Python construction site `ClientPool()`: `__new__` followed by
`__init__` on the returned object. -/
def construct (g : PyGlobals) : PyGlobals × PoolObj :=
  let (g1, o) := pyNew g
  let o1 := pyInit o
  ({ g1 with instanceSlot := some o1 }, o1)

end ClientPool

/-! ## Config loading and model resolution (src/config_loader.py) -/

namespace ConfigLoader

/-- A backend entry of a model group (`BackendConfig` of
src/config_loader.py, restricted to the attributes resolution uses).
`backendMode` is the `*_backend` key the entry was loaded from; the
constructor always sets it for config-loaded backends. -/
structure BackendC where
  baseUrl : String
  apiKey : String
  backendMode : String
  deriving Repr, DecidableEq

/-- A model group (`ModelConfig`): `available_models` maps a virtual model
name to its `actual_model`; `backends` is `backend_order`. -/
structure GroupCfg where
  availableModels : List (String × String)
  backends : List BackendC
  deriving Repr, DecidableEq

/-- The `ConfigLoader` attributes that resolution reads:
`models`, `_model_to_group_map` and `_model_config_cache`.
The cache stores resolution results `(group_name, virtual_model)`,
including negative results. -/
structure LoaderState where
  models : List (String × GroupCfg)
  modelToGroupMap : List (String × String)
  modelConfigCache : List (String × Option (String × String))
  deriving Repr, DecidableEq

/-- The loader before any `load()` call. -/
def emptyState : LoaderState :=
  { models := [], modelToGroupMap := [], modelConfigCache := [] }

/-- `ConfigLoader.load` (src/config_loader.py lines 210-263), starting from
the parsed `models:` section. For every group it assigns
`self.models[group] = ...` and adds `name -> group` and
`"group/name" -> group` to `_model_to_group_map`; finally it clears
`_model_config_cache`. Neither `models` nor `_model_to_group_map` is
cleared first. -/
def load (st : LoaderState) (cfg : List (String × GroupCfg)) : LoaderState :=
  let models := cfg.foldl (fun ms gp => assocSet ms gp.1 gp.2) st.models
  let gmap := cfg.foldl
    (fun mp gp =>
      gp.2.availableModels.foldl
        (fun mp' mv => assocSet (assocSet mp' mv.1 gp.1) (gp.1 ++ "/" ++ mv.1) gp.1) mp)
    st.modelToGroupMap
  { models := models, modelToGroupMap := gmap, modelConfigCache := [] }

/-- `model_name.split('/', 1)` with the guard `'/' in model_name`
(src/config_loader.py lines 286-289). -/
def splitSlash (name : String) : Option (String × String) :=
  -- the membership test is done on the character list so that it
  -- evaluates by reduction; it is Python's `'/' in model_name`
  if name.data.contains '/' then
    match name.splitOn "/" with
    | g :: rest => some (g, String.intercalate "/" rest)
    | [] => none
  else none

/-- `ConfigLoader.get_model_config` (src/config_loader.py lines 265-324).
Returns the resolution result and the state with the result cached.
Branches, in source order: cached result; `group/inner` lookup;
reverse-index lookup; catch-all `local` group; failure. A reverse-index
hit whose group is missing from `models` fails without the local
fallback, exactly as in the source. -/
def get_model_config (st : LoaderState) (name : String) :
    Option (String × String) × LoaderState :=
  match assocGet st.modelConfigCache name with
  | some r => (r, st)
  | none =>
    let step1 : Option (String × String) :=
      match splitSlash name with
      | some (g, inner) =>
        (match assocGet st.models g with
         | some gc => if (assocGet gc.availableModels inner).isSome then some (g, inner) else none
         | none => none)
      | none => none
    let result : Option (String × String) :=
      match step1 with
      | some r => some r
      | none =>
        match assocGet st.modelToGroupMap name with
        | some g => (match assocGet st.models g with
                     | some _ => some (g, name)
                     | none => none)
        | none =>
          if (assocGet st.models "local").isSome then some ("local", name) else none
    (result, { st with modelConfigCache := assocSet st.modelConfigCache name result })

/-- `ModelConfig.get_actual_model` (src/config_loader.py lines 163-174) for
a backend that exists: the configured `actual_model` of the virtual model,
or the virtual name itself. -/
def actualModel (gc : GroupCfg) (virtualName : String) : String :=
  (assocGet gc.availableModels virtualName).getD virtualName

/-- `ConfigLoader.get_backends_for_model` (src/config_loader.py
lines 360-395). `none` means "use the local Ollama" (unresolved model,
`local` group, or no usable backends); otherwise the non-empty ordered
`(backend, actual_model)` list. -/
def get_backends_for_model (st : LoaderState) (name : String) :
    Option (List (BackendC × String)) × LoaderState :=
  let (mi, st1) := get_model_config st name
  match mi with
  | none => (none, st1)
  | some (g, virtualName) =>
    if g = "local" then (none, st1)
    else
      match assocGet st1.models g with
      | none => (none, st1) -- unreachable: the resolver only returns groups present in `models`
      | some gc =>
        if gc.backends = [] then (none, st1)
        else
          -- every config-loaded backend has a backend_mode, so none is skipped
          -- and get_actual_model never returns None
          let result := gc.backends.map (fun bk => (bk, actualModel gc virtualName))
          if result = [] then (none, st1) else (some result, st1)

end ConfigLoader

/-! ## Dispatch and failover (src/main.py) -/

namespace Dispatch

open ConfigLoader

/-- One failover slot `(router_name, backend_config or None, actual_model)`,
as built by `get_backend_candidates_for_model`. -/
abbrev Candidate := String × Option BackendC × String

/-- `get_backend_candidates_for_model` (src/main.py lines 223-328).
When routing yields `None` the single candidate `("local", None, model)` is
returned — for any model, including ones that resolve to no group at all.
Otherwise every `(backend, actual_model)` pair becomes one candidate; the
router-name lookup/reuse/creation (`_backend_config_map`, registry scan,
fresh registration) always yields a name for the backend and is summarised
by the `routerNameOf` argument. -/
def get_backend_candidates (st : LoaderState) (routerNameOf : BackendC → String)
    (name : String) : List Candidate × LoaderState :=
  let (bi, st1) := get_backends_for_model st name
  match bi with
  | none => ([("local", none, name)], st1)
  | some infos => (infos.map (fun bam => (routerNameOf bam.1, some bam.1, bam.2)), st1)

/-- Errors surfacing from dispatch, as the client sees them:
`HTTPException(404)` for an unknown model, `HTTPException(500)` wrapping
any other failure. -/
inductive DispatchErr (ε : Type) where
  | notFound404
  | http500 (lastError : Option ε)
  deriving Repr, DecidableEq

/-- The local-availability rewrite done per attempt
(src/main.py lines 378-386 and 545-552): a `"local"` candidate is served
by the `"mock"` router when the cached Ollama probe reports down. -/
def resolveRouterName (ollamaAvailable : Bool) (rn : String) : String :=
  if rn = "local" && !ollamaAvailable then "mock" else rn

/-- The failover loop of `try_backend_request` (src/main.py lines 373-403):
attempt candidates in order, remember the error of a failed attempt and
continue; also return the list of candidates that were attempted. -/
def tryLoop {ε ρ : Type} (attempt : String → Option BackendC → String → Except ε ρ)
    (ollamaAvailable : Bool) :
    List Candidate → Option ε → (Except (Option ε) ρ) × List Candidate
  | [], lastErr => (.error lastErr, [])
  | c :: rest, _lastErr =>
    let rn := resolveRouterName ollamaAvailable c.1
    match attempt rn c.2.1 c.2.2 with
    | .ok r => (.ok r, [c])
    | .error e =>
      let (res, tried) := tryLoop attempt ollamaAvailable rest (some e)
      (res, c :: tried)

/-- `try_backend_request` (src/main.py lines 344-410): resolve candidates,
404 when there are none, then the failover loop; if every candidate fails
the last error is re-raised (wrapped as a 500 unless it already was an
HTTPException — both are modelled by `http500` carrying the last error). -/
def try_backend_request {ε ρ : Type} (st : LoaderState)
    (routerNameOf : BackendC → String) (ollamaAvailable : Bool)
    (attempt : String → Option BackendC → String → Except ε ρ)
    (name : String) : (Except (DispatchErr ε) ρ) × List Candidate :=
  let (cands, _) := get_backend_candidates st routerNameOf name
  if cands = [] then (.error .notFound404, [])
  else
    match tryLoop attempt ollamaAvailable cands none with
    | (.ok r, tried) => (.ok r, tried)
    | (.error lastErr, tried) => (.error (.http500 lastErr), tried)

/-- The dispatch actually performed by the inbound endpoints
`POST /api/generate` (src/main.py lines 489-632, via
`get_backend_router_for_model` at lines 331-341) and
`POST /v1/chat/completions` (lines 635-779): only `candidates[0]` is used;
failure of that single attempt propagates to the surrounding
`except Exception` handler, which re-raises it as `HTTPException(500)` —
including the 404 raised when the candidate list is empty. -/
def endpointDispatch {ε ρ : Type} (st : LoaderState)
    (routerNameOf : BackendC → String) (ollamaAvailable : Bool)
    (attempt : String → Option BackendC → String → Except ε ρ)
    (name : String) : (Except (DispatchErr ε) ρ) × List Candidate :=
  let (cands, _) := get_backend_candidates st routerNameOf name
  match cands with
  | [] => (.error (.http500 none), [])
  | c :: _ =>
    let rn := resolveRouterName ollamaAvailable c.1
    match attempt rn c.2.1 c.2.2 with
    | .ok r => (.ok r, [c])
    | .error e => (.error (.http500 (some e)), [c])

end Dispatch

/-! ## Concrete fixtures used by witnesses and counterexamples -/

namespace Fixtures

/-- A 60-character string (used where the claims need lengths above the
50-character thresholds). -/
def str60 : String := "012345678901234567890123456789012345678901234567890123456789"

/-- A function tool whose `function.name` is 60 characters long. -/
def toolLongName : J :=
  J.objOf
    [("type", J.s "function"),
     ("function", J.objOf
        [("name", J.s str60),
         ("description", J.s "a description"),
         ("parameters", J.objOf
            [("type", J.s "object"),
             ("properties", J.objOf [("x", J.s "y")]),
             ("required", J.arrOf [J.s "a", J.s "b", J.s "c", J.s "d", J.s "e", J.s "f", J.s "g"])])])]

/-- A minimal tool used when only the cache keying is under test. -/
def toolSimple : J :=
  J.objOf [("type", J.s "function"),
           ("function", J.objOf [("name", J.s "t"), ("parameters", J.objNil)])]

/-- A request without a `session_id` field: one user message and one tool. -/
def reqNoSession : J :=
  J.objOf
    [("tools", J.arrOf [toolSimple]),
     ("messages", J.arrOf
        [J.objOf [("role", J.s "user"), ("content", J.s "hello there, how are you today")]])]

/-- A request whose single (hence last) user message extends `str60`. -/
def reqExtending : J :=
  J.objOf
    [("messages", J.arrOf
        [J.objOf [("role", J.s "user"), ("content", J.s (str60 ++ "tail"))]])]

/-- Active-router prompt cache holding `str60` as the benchmark of the
default session. -/
def basePromptSt : BaseRouter.PromptCacheState :=
  { entries := [(J.s "default", ⟨str60, 5⟩)], lastCleanup := 0 }

/-- Legacy prompt cache holding `str60` as the benchmark of the session id
that `reqExtending` hashes to under `md5Fix`. -/
def legacyPromptSt : RoutersPy.PromptCacheState :=
  { entries := [("session_deadbeef", ⟨str60, 5⟩)], lastCleanup := 0 }

/-- Stand-in for `hashlib.md5(...).hexdigest()[:8]`. -/
def md5Fix : String → String := fun _ => "deadbeef"

/-- Three distinct backends of one group, in configured order. -/
def bk1 : ConfigLoader.BackendC := ⟨"https://u1.example", "k1", "openai_backend"⟩

def bk2 : ConfigLoader.BackendC := ⟨"https://u2.example", "k2", "secondary_backend"⟩

def bk3 : ConfigLoader.BackendC := ⟨"https://u3.example", "k3", "tertiary_backend"⟩

/-- A config with one group `g` holding virtual model `m` and three backends. -/
def cfgThree : List (String × ConfigLoader.GroupCfg) :=
  [("g", { availableModels := [("m", "am")], backends := [bk1, bk2, bk3] })]

/-- Loader state after loading `cfgThree`. -/
def stThree : ConfigLoader.LoaderState :=
  ConfigLoader.load ConfigLoader.emptyState cfgThree

/-- A config with one group `g` holding virtual model `m` and two backends. -/
def cfgTwo : List (String × ConfigLoader.GroupCfg) :=
  [("g", { availableModels := [("m", "am")], backends := [bk1, bk2] })]

/-- Loader state after loading `cfgTwo`. -/
def stTwo : ConfigLoader.LoaderState :=
  ConfigLoader.load ConfigLoader.emptyState cfgTwo

/-- Router names keyed by base URL (summarising `_backend_config_map`). -/
def rnoUrl : ConfigLoader.BackendC → String := fun b => b.baseUrl

/-- Mocked attempts: the first two backends fail before producing bytes,
the third succeeds. -/
def attempt3 : String → Option ConfigLoader.BackendC → String → Except String String :=
  fun rn _ _ => if rn = "https://u3.example" then .ok "resp3" else .error ("fail " ++ rn)

/-- Mocked attempts: the first backend fails, the second succeeds. -/
def attempt2 : String → Option ConfigLoader.BackendC → String → Except String String :=
  fun rn _ _ => if rn = "https://u2.example" then .ok "resp2" else .error "boom"

/-- A config without any group named `local`. -/
def cfgDeepseek : List (String × ConfigLoader.GroupCfg) :=
  [("deepseek", { availableModels := [("deepseek-chat", "deepseek-chat")], backends := [bk1] })]

/-- Loader state after loading `cfgDeepseek`. -/
def stDeepseek : ConfigLoader.LoaderState :=
  ConfigLoader.load ConfigLoader.emptyState cfgDeepseek

/-- An attempt function under which only the mock router answers. -/
def attemptMock : String → Option ConfigLoader.BackendC → String → Except String String :=
  fun rn _ _ => if rn = "mock" then .ok "mock-response" else .error "down"

/-- First config for the reload scenario: group `g` with model `m`. -/
def cfgOld : List (String × ConfigLoader.GroupCfg) :=
  [("g", { availableModels := [("m", "am")], backends := [bk1] })]

/-- Second config for the reload scenario: only group `h` with model `k`. -/
def cfgNew : List (String × ConfigLoader.GroupCfg) :=
  [("h", { availableModels := [("k", "k")], backends := [bk2] })]

/-- Loader state after loading `cfgOld` and then reloading `cfgNew`. -/
def stReloaded : ConfigLoader.LoaderState :=
  ConfigLoader.load (ConfigLoader.load ConfigLoader.emptyState cfgOld) cfgNew

/-- Loader state of a fresh process that only ever loaded `cfgNew`. -/
def stFreshNew : ConfigLoader.LoaderState :=
  ConfigLoader.load ConfigLoader.emptyState cfgNew

/-- Pool key of the cached-client scenario. -/
def poolKey1 : ClientPool.PoolKey := ⟨"http://a.example", none, true⟩

/-- Pool state holding client `0` for `poolKey1`, last used at time `0`. -/
def poolSt1 : ClientPool.PoolState :=
  { clients := [(poolKey1, 0)], refCounts := [(poolKey1, 1)],
    lastUsed := [(poolKey1, 0)], nextClientId := 1, closed := [] }

end Fixtures

/-! ## Helper lemmas -/

theorem assocGet_assocSet_self {κ α : Type} [DecidableEq κ] (l : List (κ × α)) (k : κ) (v : α) :
    assocGet (assocSet l k v) k = some v := by
  induction l with
  | nil => simp [assocSet, assocGet]
  | cons p rest ih =>
      obtain ⟨k0, v0⟩ := p
      by_cases h : k0 = k
      · subst h; simp [assocSet, assocGet]
      · simp [assocSet, assocGet, h, ih]

theorem assocGet_assocSet_ne {κ α : Type} [DecidableEq κ] (l : List (κ × α)) (k k' : κ) (v : α)
    (h : k ≠ k') : assocGet (assocSet l k' v) k = assocGet l k := by
  have h' : k' ≠ k := Ne.symm h
  induction l with
  | nil => simp [assocSet, assocGet, h']
  | cons p rest ih =>
      obtain ⟨k0, v0⟩ := p
      by_cases h0 : k0 = k'
      · subst h0
        simp [assocSet, assocGet, h']
      · simp only [assocSet, if_neg h0, assocGet]
        by_cases h1 : k0 = k <;> simp [h1, ih]

/-! ## Claim C3 -/

/-- Claim C3, corrected. For a dict response with
`choices[0].message.content = s` and `usage.total_tokens = n`, the
conversion returns exactly
`{model: v, response: s, done: true, total_duration: n * 50_000_000}`,
and `total_duration` is `0` when `usage` is absent; but for a dict in
which the key `choices` is absent the conversion raises
`KeyError("choices")` instead of passing the input through. -/
theorem c3_openai_to_ollama_corrected
    (v sVal : String) (tok : Int) (msgRest c0Rest choicesRest usageRest rest : J) :
    OpenAIRouter.convert_to_ollama_format
        (J.objCons "choices"
          (J.arrCons (J.objCons "message" (J.objCons "content" (J.s sVal) msgRest) c0Rest)
            choicesRest)
          (J.objCons "usage" (J.objCons "total_tokens" (J.n tok) usageRest) rest))
        v
      = .ok (J.objOf [("model", J.s v), ("response", J.s sVal), ("done", J.b true),
                      ("total_duration", J.n (tok * 50000000))]) ∧
    OpenAIRouter.convert_to_ollama_format
        (J.objCons "choices"
          (J.arrCons (J.objCons "message" (J.objCons "content" (J.s sVal) msgRest) c0Rest)
            choicesRest)
          J.objNil)
        v
      = .ok (J.objOf [("model", J.s v), ("response", J.s sVal), ("done", J.b true),
                      ("total_duration", J.n 0)]) ∧
    (∀ fs : List (String × J), jget (J.objOf fs) "choices" = none →
      OpenAIRouter.convert_to_ollama_format (J.objOf fs) v = .error (.keyError "choices")) := by
  refine ⟨rfl, rfl, ?_⟩
  intro fs h
  cases fs with
  | nil => rfl
  | cons p rest' =>
      obtain ⟨k0, v0⟩ := p
      simp only [J.objOf] at h
      simp only [J.objOf, OpenAIRouter.convert_to_ollama_format]
      rw [h]

/-- Witness for C3: the theorem applied at concrete inputs, including the
`choices`-absent hypothesis. -/
theorem c3_openai_to_ollama_witness :
    jget (J.objOf [("model", J.s "m")]) "choices" = none ∧
    OpenAIRouter.convert_to_ollama_format (J.objOf [("model", J.s "m")]) "vm"
      = .error (.keyError "choices") ∧
    OpenAIRouter.convert_to_ollama_format
        (J.objOf [("choices", J.arrOf [J.objOf [("message", J.objOf [("content", J.s "hi")])]]),
                  ("usage", J.objOf [("total_tokens", J.n 3)])]) "vm"
      = .ok (J.objOf [("model", J.s "vm"), ("response", J.s "hi"), ("done", J.b true),
                      ("total_duration", J.n 150000000)]) :=
  ⟨rfl,
   (c3_openai_to_ollama_corrected "vm" "" 0 J.objNil J.objNil J.objNil J.objNil J.objNil).2.2
     [("model", J.s "m")] rfl,
   (c3_openai_to_ollama_corrected "vm" "hi" 3 J.objNil J.objNil J.objNil J.objNil J.objNil).1⟩

/-- Counterexample for C3 as stated: a dict without `choices` is not passed
through; the conversion fails with `KeyError("choices")`. -/
theorem c3_passthrough_counterexample :
    OpenAIRouter.convert_to_ollama_format (J.objCons "model" (J.s "m") J.objNil) "vm"
      = .error (.keyError "choices") ∧
    ¬ (OpenAIRouter.convert_to_ollama_format (J.objCons "model" (J.s "m") J.objNil) "vm"
        = .ok (J.objCons "model" (J.s "m") J.objNil)) := by
  refine ⟨rfl, ?_⟩
  intro h
  rw [show OpenAIRouter.convert_to_ollama_format (J.objCons "model" (J.s "m") J.objNil) "vm"
        = .error (.keyError "choices") from rfl] at h
  exact Except.noConfusion h

/-! ## Claim C7 -/

/-- Claim C7, confirmed. An `acquire` whose key hits a cached client with
idle age above 30 s issues a health-check HEAD; whenever that HEAD fails,
the cached client is closed (its id lands in `closed`), removed, and the
returned client is the freshly created one — never the previously cached
object. `hfresh` is the pool invariant that cached ids predate
`nextClientId`. -/
theorem c7_health_check_replacement
    (st : ClientPool.PoolState) (baseUrl : String) (apiKey : Option String)
    (compression : Bool) (now : Nat) (headOk : Bool) (c : Nat)
    (hcached : assocGet st.clients ⟨ClientPool.rstripSlash baseUrl, apiKey, compression⟩ = some c)
    (hidle : 30 < now - (assocGet st.lastUsed
        ⟨ClientPool.rstripSlash baseUrl, apiKey, compression⟩).getD 0)
    (hfresh : c < st.nextClientId) :
    (ClientPool.get_client st baseUrl apiKey compression now headOk).headIssued = true ∧
    (headOk = false →
      (ClientPool.get_client st baseUrl apiKey compression now headOk).client
          = st.nextClientId ∧
      (ClientPool.get_client st baseUrl apiKey compression now headOk).client ≠ c ∧
      c ∈ (ClientPool.get_client st baseUrl apiKey compression now headOk).state.closed ∧
      assocGet (ClientPool.get_client st baseUrl apiKey compression now headOk).state.clients
          ⟨ClientPool.rstripSlash baseUrl, apiKey, compression⟩ = some st.nextClientId) := by
  cases headOk with
  | true =>
      refine ⟨?_, by intro h; exact absurd h (by simp)⟩
      simp only [ClientPool.get_client, hcached]
      rw [if_pos hidle]
      rfl
  | false =>
      have hmain : ClientPool.get_client st baseUrl apiKey compression now false
          = ClientPool.createClient
              { clients := assocErase st.clients ⟨ClientPool.rstripSlash baseUrl, apiKey, compression⟩,
                refCounts := assocErase st.refCounts ⟨ClientPool.rstripSlash baseUrl, apiKey, compression⟩,
                lastUsed := assocErase st.lastUsed ⟨ClientPool.rstripSlash baseUrl, apiKey, compression⟩,
                nextClientId := st.nextClientId,
                closed := c :: st.closed }
              ⟨ClientPool.rstripSlash baseUrl, apiKey, compression⟩ now true := by
        simp only [ClientPool.get_client, hcached]
        rw [if_pos hidle]
        rfl
      refine ⟨?_, fun _ => ⟨?_, ?_, ?_, ?_⟩⟩
      · rw [hmain]; rfl
      · rw [hmain]; rfl
      · rw [hmain]
        exact fun h => absurd (h ▸ hfresh) (lt_irrefl _)
      · rw [hmain]
        exact List.mem_cons_self _ _
      · rw [hmain]
        simp only [ClientPool.createClient]
        exact assocGet_assocSet_self _ _ _

/-- Witness for C7 at a concrete pool state: client `0` cached, idle 31 s,
HEAD fails, and the call returns the new client `1`. -/
theorem c7_health_check_replacement_witness :
    (30 : Nat) < 31 - 0 ∧
    (ClientPool.get_client Fixtures.poolSt1 "http://a.example" none true 31 false).headIssued
      = true ∧
    (ClientPool.get_client Fixtures.poolSt1 "http://a.example" none true 31 false).client ≠ 0 :=
  ⟨by decide,
   (c7_health_check_replacement Fixtures.poolSt1 "http://a.example" none true 31 false 0
      (by decide) (by decide) (by decide)).1,
   ((c7_health_check_replacement Fixtures.poolSt1 "http://a.example" none true 31 false 0
      (by decide) (by decide) (by decide)).2 rfl).2.1⟩

/-! ## Claim C9 -/

/-- Claim C9, confirmed. Constructing `ClientPool` when the singleton is
already initialized returns the very same object and leaves the globals
(and hence the maps) untouched; and from any starting globals, a second
construction returns the object produced by the first and changes
nothing. -/
theorem c9_singleton_pool
    (g : ClientPool.PyGlobals) (o : ClientPool.PoolObj)
    (hslot : g.instanceSlot = some o) (hinit : o.initialized = true) :
    ClientPool.construct g = (g, o) ∧
    (∀ g0 : ClientPool.PyGlobals,
       ClientPool.construct (ClientPool.construct g0).1
         = ((ClientPool.construct g0).1, (ClientPool.construct g0).2)) := by
  constructor
  · obtain ⟨slot, nid⟩ := g
    simp only at hslot
    subst hslot
    simp [ClientPool.construct, ClientPool.pyNew, ClientPool.pyInit, hinit]
  · intro g0
    obtain ⟨slot0, nid0⟩ := g0
    cases slot0 with
    | none => rfl
    | some o0 =>
        by_cases ho : o0.initialized <;>
          simp [ClientPool.construct, ClientPool.pyNew, ClientPool.pyInit, ho]

/-- Witness for C9 at a concrete initialized singleton. -/
theorem c9_singleton_pool_witness :
    (some (⟨7, true, [], [], []⟩ : ClientPool.PoolObj)
        = some (⟨7, true, [], [], []⟩ : ClientPool.PoolObj)) ∧
    ClientPool.construct ⟨some ⟨7, true, [], [], []⟩, 8⟩
      = (⟨some ⟨7, true, [], [], []⟩, 8⟩, ⟨7, true, [], [], []⟩) :=
  ⟨rfl, (c9_singleton_pool ⟨some ⟨7, true, [], [], []⟩, 8⟩ ⟨7, true, [], [], []⟩ rfl rfl).1⟩

/-! ## Claim C10 -/

theorem jget_jset_ne (o : J) (key k : String) (v : J) (h : k ≠ key) :
    jget (jset o key v) k = jget o k := by
  have h' : key ≠ k := Ne.symm h
  induction o with
  | s v0 => rfl
  | n v0 => rfl
  | b v0 => rfl
  | null => rfl
  | arrNil => rfl
  | arrCons hd tl ih1 ih2 => rfl
  | objNil => simp [jset, jget, h']
  | objCons k0 v0 tl ihv ihtl =>
      by_cases h0 : k0 = key
      · subst h0
        simp [jset, jget, h']
      · simp only [jset, if_neg h0, jget]
        by_cases h1 : k0 = k <;> simp [h1, ihtl]

theorem base_optimize_tools_fst (e : Bool) (now : Nat)
    (st : BaseRouter.ToolsCacheState) (req : J) :
    (BaseRouter.optimize_tools_in_request e now st req).1 = req ∨
    ∃ comp, (BaseRouter.optimize_tools_in_request e now st req).1 = jset req "tools" comp := by
  unfold BaseRouter.optimize_tools_in_request
  split
  · exact Or.inl rfl
  · split
    · exact Or.inl rfl
    · split
      · exact Or.inl rfl
      · dsimp only
        split
        · exact Or.inr ⟨_, rfl⟩
        · exact Or.inr ⟨_, rfl⟩

theorem base_optimize_prompt_fst (e : Bool) (now : Nat)
    (st : BaseRouter.PromptCacheState) (req : J) :
    (BaseRouter.optimize_prompt e now st req).1 = req := by
  unfold BaseRouter.optimize_prompt
  repeat' first | rfl | split | dsimp only

/-- Claim C10, confirmed. The active optimizers are frame-respecting:
`_optimize_tools_in_request` changes at most the `tools` field (every other
key reads back unchanged), and returns the request unchanged when disabled
or when the request has no `tools`; `_optimize_prompt` returns the request
unchanged on every path (so in particular it modifies at most the content
of the last message), including when disabled or without `messages`. -/
theorem c10_optimizer_frame :
    (∀ (e : Bool) (now : Nat) (st : BaseRouter.ToolsCacheState) (req : J) (k : String),
       k ≠ "tools" →
       jget (BaseRouter.optimize_tools_in_request e now st req).1 k = jget req k) ∧
    (∀ (now : Nat) (st : BaseRouter.ToolsCacheState) (req : J),
       (BaseRouter.optimize_tools_in_request false now st req).1 = req) ∧
    (∀ (e : Bool) (now : Nat) (st : BaseRouter.ToolsCacheState) (req : J),
       jget req "tools" = none →
       (BaseRouter.optimize_tools_in_request e now st req).1 = req) ∧
    (∀ (e : Bool) (now : Nat) (st : BaseRouter.PromptCacheState) (req : J),
       (BaseRouter.optimize_prompt e now st req).1 = req) ∧
    (∀ (e : Bool) (now : Nat) (st : BaseRouter.PromptCacheState) (req : J),
       jget req "messages" = none →
       (BaseRouter.optimize_prompt e now st req).1 = req) := by
  refine ⟨?_, ?_, ?_, ?_, ?_⟩
  · intro e now st req k hk
    rcases base_optimize_tools_fst e now st req with h | ⟨comp, h⟩
    · rw [h]
    · rw [h, jget_jset_ne _ _ _ _ hk]
  · intro now st req
    rfl
  · intro e now st req h
    cases e
    · rfl
    · simp [BaseRouter.optimize_tools_in_request, h]
  · intro e now st req
    exact base_optimize_prompt_fst e now st req
  · intro e now st req _
    exact base_optimize_prompt_fst e now st req

/-- Witness for C10 at a concrete request and empty caches. -/
theorem c10_optimizer_frame_witness :
    ("model" ≠ "tools") ∧
    jget (BaseRouter.optimize_tools_in_request true 0 ⟨[], 0⟩ Fixtures.reqNoSession).1 "model"
      = jget Fixtures.reqNoSession "model" ∧
    (BaseRouter.optimize_prompt true 0 ⟨[], 0⟩ Fixtures.reqNoSession).1
      = Fixtures.reqNoSession :=
  ⟨by decide,
   c10_optimizer_frame.1 true 0 ⟨[], 0⟩ Fixtures.reqNoSession "model" (by decide),
   c10_optimizer_frame.2.2.2.1 true 0 ⟨[], 0⟩ Fixtures.reqNoSession⟩

/-! ## Claim C4 -/

/-- Claim C4, corrected. The described prompt elision is the behaviour of
the legacy `routers.py` `_optimize_prompt`: with a stored benchmark, a
common prefix of length >= 50 rewrites the outgoing content to
`<开头{prefix[:30]}....末尾{prefix[-30:]}>` plus the remainder and keeps
the benchmark (refreshing its timestamp); a shorter common prefix leaves
the content unchanged and installs the new content as benchmark; identical
content only refreshes the timestamp. The active router's
`_optimize_prompt` (`base_router.py`) never rewrites any message: it
returns the request unchanged on every path. -/
theorem c4_prompt_elision_corrected :
    (∀ (md5hex8 : String → String) (nowMs rand4 now : Nat)
       (st : RoutersPy.PromptCacheState) (msgs reqRest lastMsg : J)
       (content benchmark : String) (ts : Nat) (sid : String),
       jTruthy msgs = true →
       jarrLast msgs = some lastMsg →
       jget lastMsg "role" = some (J.s "user") →
       jget lastMsg "content" = some (J.s content) →
       content ≠ "" →
       RoutersPy.extract_session_id md5hex8 nowMs rand4 (J.objCons "messages" msgs reqRest) = sid →
       assocGet st.entries sid = some ⟨benchmark, ts⟩ →
       content ≠ benchmark →
       50 ≤ (RoutersPy.findCommonPfx benchmark content).length →
       ¬ (now - st.lastCleanup > 300) →
       RoutersPy.optimize_prompt true md5hex8 nowMs rand4 now st
           (J.objCons "messages" msgs reqRest)
         = (jset (J.objCons "messages" msgs reqRest) "messages"
             (jarrSetLast msgs (jset lastMsg "content" (J.s
               ("<开头" ++ (RoutersPy.findCommonPfx benchmark content).take 30
                 ++ "....末尾"
                 ++ (RoutersPy.findCommonPfx benchmark content).drop
                      ((RoutersPy.findCommonPfx benchmark content).length - 30)
                 ++ ">"
                 ++ content.drop (RoutersPy.findCommonPfx benchmark content).length)))),
            { entries := assocSet st.entries sid ⟨benchmark, now⟩,
              lastCleanup := st.lastCleanup })) ∧
    (∀ (md5hex8 : String → String) (nowMs rand4 now : Nat)
       (st : RoutersPy.PromptCacheState) (msgs reqRest lastMsg : J)
       (content benchmark : String) (ts : Nat) (sid : String),
       jTruthy msgs = true →
       jarrLast msgs = some lastMsg →
       jget lastMsg "role" = some (J.s "user") →
       jget lastMsg "content" = some (J.s content) →
       content ≠ "" →
       RoutersPy.extract_session_id md5hex8 nowMs rand4 (J.objCons "messages" msgs reqRest) = sid →
       assocGet st.entries sid = some ⟨benchmark, ts⟩ →
       content ≠ benchmark →
       (RoutersPy.findCommonPfx benchmark content).length < 50 →
       ¬ (now - st.lastCleanup > 300) →
       RoutersPy.optimize_prompt true md5hex8 nowMs rand4 now st
           (J.objCons "messages" msgs reqRest)
         = (J.objCons "messages" msgs reqRest,
            { entries := assocSet st.entries sid ⟨content, now⟩,
              lastCleanup := st.lastCleanup })) ∧
    (∀ (md5hex8 : String → String) (nowMs rand4 now : Nat)
       (st : RoutersPy.PromptCacheState) (msgs reqRest lastMsg : J)
       (benchmark : String) (ts : Nat) (sid : String),
       jTruthy msgs = true →
       jarrLast msgs = some lastMsg →
       jget lastMsg "role" = some (J.s "user") →
       jget lastMsg "content" = some (J.s benchmark) →
       benchmark ≠ "" →
       RoutersPy.extract_session_id md5hex8 nowMs rand4 (J.objCons "messages" msgs reqRest) = sid →
       assocGet st.entries sid = some ⟨benchmark, ts⟩ →
       RoutersPy.optimize_prompt true md5hex8 nowMs rand4 now st
           (J.objCons "messages" msgs reqRest)
         = (J.objCons "messages" msgs reqRest,
            { entries := assocSet st.entries sid ⟨benchmark, now⟩,
              lastCleanup := st.lastCleanup })) ∧
    (∀ (e : Bool) (now : Nat) (st : BaseRouter.PromptCacheState) (req : J),
       (BaseRouter.optimize_prompt e now st req).1 = req) := by
  refine ⟨?_, ?_, ?_, ?_⟩
  · intro md5hex8 nowMs rand4 now st msgs reqRest lastMsg content benchmark ts sid
      hmsgs hlast hrole hcont hc hsid hentry hne hlen hnc
    simp [RoutersPy.optimize_prompt, RoutersPy.cleanup_prompt_cache, jget,
      hsid, hmsgs, hlast, hrole, hcont, hentry, hc, hne, hlen, hnc]
  · intro md5hex8 nowMs rand4 now st msgs reqRest lastMsg content benchmark ts sid
      hmsgs hlast hrole hcont hc hsid hentry hne hlt hnc
    have hnl : ¬ 50 ≤ (RoutersPy.findCommonPfx benchmark content).length := Nat.not_le.mpr hlt
    simp [RoutersPy.optimize_prompt, RoutersPy.cleanup_prompt_cache, jget,
      hsid, hmsgs, hlast, hrole, hcont, hentry, hc, hne, hnl, hnc]
  · intro md5hex8 nowMs rand4 now st msgs reqRest lastMsg benchmark ts sid
      hmsgs hlast hrole hcont hc hsid hentry
    simp [RoutersPy.optimize_prompt, jget, hsid, hmsgs, hlast, hrole, hcont, hentry, hc]
  · intro e now st req
    exact base_optimize_prompt_fst e now st req

/-- Witness for C4: the legacy rewrite applied at a concrete session whose
benchmark (60 chars) is a full prefix of the new content. -/
theorem c4_prompt_elision_witness :
    50 ≤ (RoutersPy.findCommonPfx Fixtures.str60 (Fixtures.str60 ++ "tail")).length ∧
    RoutersPy.optimize_prompt true Fixtures.md5Fix 0 0 10 Fixtures.legacyPromptSt
        (J.objCons "messages"
          (J.arrOf [J.objOf [("role", J.s "user"), ("content", J.s (Fixtures.str60 ++ "tail"))]])
          J.objNil)
      = (jset (J.objCons "messages"
            (J.arrOf [J.objOf [("role", J.s "user"),
              ("content", J.s (Fixtures.str60 ++ "tail"))]]) J.objNil) "messages"
          (jarrSetLast (J.arrOf [J.objOf [("role", J.s "user"),
              ("content", J.s (Fixtures.str60 ++ "tail"))]])
            (jset (J.objOf [("role", J.s "user"), ("content", J.s (Fixtures.str60 ++ "tail"))])
              "content"
              (J.s ("<开头"
                ++ (RoutersPy.findCommonPfx Fixtures.str60 (Fixtures.str60 ++ "tail")).take 30
                ++ "....末尾"
                ++ (RoutersPy.findCommonPfx Fixtures.str60 (Fixtures.str60 ++ "tail")).drop
                     ((RoutersPy.findCommonPfx Fixtures.str60 (Fixtures.str60 ++ "tail")).length - 30)
                ++ ">"
                ++ (Fixtures.str60 ++ "tail").drop
                     (RoutersPy.findCommonPfx Fixtures.str60 (Fixtures.str60 ++ "tail")).length)))),
         { entries := assocSet Fixtures.legacyPromptSt.entries "session_deadbeef"
             ⟨Fixtures.str60, 10⟩,
           lastCleanup := Fixtures.legacyPromptSt.lastCleanup }) :=
  ⟨by decide,
   (c4_prompt_elision_corrected.1) Fixtures.md5Fix 0 0 10 Fixtures.legacyPromptSt
     (J.arrOf [J.objOf [("role", J.s "user"), ("content", J.s (Fixtures.str60 ++ "tail"))]])
     J.objNil
     (J.objOf [("role", J.s "user"), ("content", J.s (Fixtures.str60 ++ "tail"))])
     (Fixtures.str60 ++ "tail") Fixtures.str60 5 "session_deadbeef"
     (by decide) (by decide) (by decide) (by decide) (by decide) (by decide)
     (by decide) (by decide) (by decide) (by decide)⟩

/-- Counterexample for C4 as stated: in the active router, a request whose
last user message extends the stored 60-char benchmark of its session is
returned entirely unchanged — the outgoing content is not rewritten to the
`<开头…末尾…>` sentinel the claim requires. -/
theorem c4_active_router_counterexample :
    BaseRouter.optimize_prompt true 10 Fixtures.basePromptSt Fixtures.reqExtending
      = (Fixtures.reqExtending, Fixtures.basePromptSt) ∧
    50 ≤ (RoutersPy.findCommonPfx Fixtures.str60 (Fixtures.str60 ++ "tail")).length ∧
    (Fixtures.str60 ++ "tail").data.take 3 ≠ "<开头".data := by
  exact ⟨by decide, by decide, by decide⟩

/-! ## Claim C5 -/

theorem compress_go_sublist (ts : List J) :
    ∀ seen, (BaseRouter.compress_tools_go seen ts).Sublist ts := by
  induction ts with
  | nil => intro seen; simp [BaseRouter.compress_tools_go]
  | cons t rest ih =>
      intro seen
      simp only [BaseRouter.compress_tools_go]
      split
      · exact (ih seen).cons _
      · exact (ih _).cons₂ _

theorem compress_go_sig_not_seen (ts : List J) :
    ∀ seen x, x ∈ BaseRouter.compress_tools_go seen ts →
      ∀ sg ∈ seen, BaseRouter.toolSig x ≠ sg := by
  induction ts with
  | nil => intro seen x hx; simp [BaseRouter.compress_tools_go] at hx
  | cons t rest ih =>
      intro seen x hx sg hsg
      simp only [BaseRouter.compress_tools_go] at hx
      by_cases hmem : BaseRouter.toolSig t ∈ seen
      · rw [if_pos hmem] at hx
        exact ih seen x hx sg hsg
      · rw [if_neg hmem] at hx
        rcases List.mem_cons.mp hx with rfl | hx'
        · exact fun he => hmem (by rw [he]; exact hsg)
        · exact ih _ x hx' sg (List.mem_cons_of_mem _ hsg)

theorem compress_go_pairwise (ts : List J) :
    ∀ seen, (BaseRouter.compress_tools_go seen ts).Pairwise
      (fun a b => BaseRouter.toolSig b ≠ BaseRouter.toolSig a) := by
  induction ts with
  | nil => intro seen; simp [BaseRouter.compress_tools_go]
  | cons t rest ih =>
      intro seen
      simp only [BaseRouter.compress_tools_go]
      split
      · exact ih seen
      · refine List.Pairwise.cons ?_ (ih _)
        intro b hb
        exact compress_go_sig_not_seen rest _ b hb _ (List.mem_cons_self _ _)

theorem compress_go_covers (ts : List J) :
    ∀ seen t, t ∈ ts →
      BaseRouter.toolSig t ∈ seen ∨
      ∃ u ∈ BaseRouter.compress_tools_go seen ts,
        BaseRouter.toolSig u = BaseRouter.toolSig t := by
  induction ts with
  | nil => intro seen t ht; cases ht
  | cons t0 rest ih =>
      intro seen t ht
      simp only [BaseRouter.compress_tools_go]
      rcases List.mem_cons.mp ht with rfl | ht'
      · by_cases hmem : BaseRouter.toolSig t ∈ seen
        · exact Or.inl hmem
        · right
          rw [if_neg hmem]
          exact ⟨t, List.mem_cons_self _ _, rfl⟩
      · by_cases hmem : BaseRouter.toolSig t0 ∈ seen
        · rw [if_pos hmem]
          exact ih seen t ht'
        · rw [if_neg hmem]
          rcases ih (BaseRouter.toolSig t0 :: seen) t ht' with h | ⟨u, hu, he⟩
          · rcases List.mem_cons.mp h with he0 | hseen
            · right; exact ⟨t0, List.mem_cons_self _ _, he0.symm⟩
            · exact Or.inl hseen
          · right; exact ⟨u, List.mem_cons_of_mem _ hu, he⟩

/-- Claim C5, corrected. The two halves of the claimed behaviour live in
different implementations. The legacy `routers.py` `_compress_tools`
truncates (for a `function` tool: `type` kept, top-level `name` cut to 50,
`function.name` to 50, `function.description` to 100, `function.parameters`
reduced to `{type, properties: {}, required: required[:5]}`) but never
deduplicates (output length equals input length). The active
`base_router.py` `_compress_tools` — the one applied before dispatch —
only deduplicates by the signature `{name, parameters}`: its output is a
sublist of the input (kept tools are unchanged), signatures in the output
are pairwise distinct, and every input tool's signature is represented. -/
theorem c5_tools_compression_corrected :
    (∀ tools : List J, (RoutersPy.compress_tools tools).length = tools.length) ∧
    (∀ (nm desc pty : String) (props reqHd reqTl fExtra pExtra : J),
       RoutersPy.compress_tool
           (J.objCons "type" (J.s "function")
             (J.objCons "function"
               (J.objCons "name" (J.s nm)
                 (J.objCons "description" (J.s desc)
                   (J.objCons "parameters"
                     (J.objCons "type" (J.s pty)
                       (J.objCons "properties" props
                         (J.objCons "required" (J.arrCons reqHd reqTl) pExtra)))
                     fExtra)))
               J.objNil))
         = J.objOf
             [("type", J.s "function"), ("name", J.s ""),
              ("function", J.objOf
                 [("name", J.s (nm.take 50)), ("description", J.s (desc.take 100)),
                  ("parameters", J.objOf
                     [("type", J.s pty), ("properties", J.objNil),
                      ("required", RoutersPy.jarrTake 5 (J.arrCons reqHd reqTl))])])]) ∧
    (∀ tools : List J, (BaseRouter.compress_tools tools).Sublist tools) ∧
    (∀ tools : List J, (BaseRouter.compress_tools tools).Pairwise
       (fun a b => BaseRouter.toolSig b ≠ BaseRouter.toolSig a)) ∧
    (∀ (tools : List J) (t : J), t ∈ tools →
       ∃ u ∈ BaseRouter.compress_tools tools,
         BaseRouter.toolSig u = BaseRouter.toolSig t) := by
  refine ⟨?_, ?_, ?_, ?_, ?_⟩
  · intro tools
    exact List.length_map _ _
  · intro nm desc pty props reqHd reqTl fExtra pExtra
    rfl
  · intro tools
    exact compress_go_sublist tools []
  · intro tools
    exact compress_go_pairwise tools []
  · intro tools t ht
    rcases compress_go_covers tools [] t ht with h | h
    · cases h
    · exact h

/-- Witness for C5: a duplicated tool collapses to one entry in the active
compressor, and the legacy compressor keeps the list length. -/
theorem c5_tools_compression_witness :
    (Fixtures.toolSimple ∈ [Fixtures.toolSimple, Fixtures.toolSimple]) ∧
    (∃ u ∈ BaseRouter.compress_tools [Fixtures.toolSimple, Fixtures.toolSimple],
       BaseRouter.toolSig u = BaseRouter.toolSig Fixtures.toolSimple) ∧
    (RoutersPy.compress_tools [Fixtures.toolLongName]).length
      = [Fixtures.toolLongName].length :=
  ⟨by decide,
   c5_tools_compression_corrected.2.2.2.2 [Fixtures.toolSimple, Fixtures.toolSimple]
     Fixtures.toolSimple (by decide),
   c5_tools_compression_corrected.1 [Fixtures.toolLongName]⟩

/-- Counterexample for C5 as stated: the compression applied before
dispatch keeps a 60-character `function.name` untruncated — the tool comes
back byte-identical. -/
theorem c5_truncation_counterexample :
    BaseRouter.compress_tools [Fixtures.toolLongName] = [Fixtures.toolLongName] ∧
    jget (jgetD Fixtures.toolLongName "function" J.objNil) "name"
      = some (J.s Fixtures.str60) ∧
    50 < Fixtures.str60.length := by
  exact ⟨by decide, by decide, by decide⟩

/-! ## Claim C6 -/

/-- Claim C6, corrected. The caches the dispatched routers actually use
(`base_router.py`) key sessions by `request_data.get("session_id",
"default")`: an explicit `session_id` is used verbatim, and otherwise the
literal key `"default"` — no MD5 derivation and no `temp_...` key. The
`session_<md5[:8]>` / `temp_<ms>_<rand4>` derivation exists only in the
legacy `routers.py` `_extract_session_id`, which in turn never consults a
`session_id` field. -/
theorem c6_session_key_corrected :
    (∀ (sidVal tailFields : J),
       BaseRouter.session_key (J.objCons "session_id" sidVal tailFields) = sidVal) ∧
    (∀ req : J, jget req "session_id" = none →
       BaseRouter.session_key req = J.s "default") ∧
    (∀ (now lc : Nat) (tools tailFields : J),
       jTruthy tools = true →
       jget tailFields "session_id" = none →
       now - lc < 30 →
       (BaseRouter.optimize_tools_in_request true now ⟨[], lc⟩
           (J.objCons "tools" tools tailFields)).2.entries
         = [(J.s "default",
             ⟨tools, J.arrOf (BaseRouter.compress_tools (jarrToList tools)), now⟩)]) ∧
    (∀ (md5hex8 : String → String) (nowMs rand4 : Nat) (sidVal first mrest rrest : J)
       (c : String),
       jget first "content" = some (J.s c) →
       c ≠ "" →
       RoutersPy.extract_session_id md5hex8 nowMs rand4
           (J.objCons "session_id" sidVal
             (J.objCons "messages" (J.arrCons first mrest) rrest))
         = "session_" ++ md5hex8 (c.take 100)) ∧
    (∀ (md5hex8 : String → String) (nowMs rand4 : Nat),
       RoutersPy.extract_session_id md5hex8 nowMs rand4 J.objNil
         = "temp_" ++ toString nowMs ++ "_" ++ toString rand4) := by
  refine ⟨?_, ?_, ?_, ?_, ?_⟩
  · intro sidVal tailFields
    rfl
  · intro req h
    simp [BaseRouter.session_key, jgetD, h]
  · intro now lc tools tailFields htr hsid hcl
    simp [BaseRouter.optimize_tools_in_request, BaseRouter.session_key, jgetD, jget,
      BaseRouter.cleanup_tools_cache, assocGet, assocSet, hsid, htr, hcl]
  · intro md5hex8 nowMs rand4 sidVal first mrest rrest c hcont hc
    simp [RoutersPy.extract_session_id, jget, hcont, hc]
  · intro md5hex8 nowMs rand4
    rfl

/-- Witness for C6: a request without `session_id` keys the tools cache
under the literal `"default"`. -/
theorem c6_session_key_witness :
    jget Fixtures.reqNoSession "session_id" = none ∧
    BaseRouter.session_key Fixtures.reqNoSession = J.s "default" ∧
    (BaseRouter.optimize_tools_in_request true 10 ⟨[], 0⟩
        (J.objCons "tools" (J.arrOf [Fixtures.toolSimple]) J.objNil)).2.entries
      = [(J.s "default",
          ⟨J.arrOf [Fixtures.toolSimple],
           J.arrOf (BaseRouter.compress_tools (jarrToList (J.arrOf [Fixtures.toolSimple]))),
           10⟩)] :=
  ⟨by decide,
   c6_session_key_corrected.2.1 Fixtures.reqNoSession (by decide),
   c6_session_key_corrected.2.2.1 10 0 (J.arrOf [Fixtures.toolSimple]) J.objNil
     (by decide) (by decide) (by decide)⟩

/-- Counterexample for C6 as stated: a request with messages but no
`session_id` is cached under the key `"default"`, not under any
`session_<md5-prefix>` key. -/
theorem c6_session_key_counterexample :
    (BaseRouter.optimize_tools_in_request true 0 ⟨[], 0⟩ Fixtures.reqNoSession).2.entries.map
        Prod.fst = [J.s "default"] ∧
    "default".data.take 8 ≠ "session_".data := by
  exact ⟨by decide, by decide⟩

/-! ## Claim C2 -/

theorem get_backends_none_of_unresolved (st : ConfigLoader.LoaderState) (name : String)
    (h : (ConfigLoader.get_model_config st name).1 = none) :
    (ConfigLoader.get_backends_for_model st name).1 = none := by
  unfold ConfigLoader.get_backends_for_model
  rcases hmc : ConfigLoader.get_model_config st name with ⟨mi, st1⟩
  rw [hmc] at h
  simp only at h
  subst h
  rfl

theorem get_backends_some_ne_nil (st : ConfigLoader.LoaderState) (name : String)
    (infos : List (ConfigLoader.BackendC × String))
    (h : (ConfigLoader.get_backends_for_model st name).1 = some infos) : infos ≠ [] := by
  unfold ConfigLoader.get_backends_for_model at h
  rcases hmc : ConfigLoader.get_model_config st name with ⟨mi, st1⟩
  rw [hmc] at h
  cases mi with
  | none => simp at h
  | some gv =>
      obtain ⟨g, virtualName⟩ := gv
      by_cases hg : g = "local"
      · simp [hg] at h
      · simp only [if_neg hg] at h
        cases hgc : assocGet st1.models g with
        | none => rw [hgc] at h; simp at h
        | some gc =>
            rw [hgc] at h
            by_cases hb : gc.backends = []
            · simp [hb] at h
            · simp only [if_neg hb] at h
              by_cases hr : gc.backends.map
                  (fun bk => (bk, ConfigLoader.actualModel gc virtualName)) = []
              · rw [if_pos hr] at h; simp at h
              · rw [if_neg hr] at h
                simp only at h
                have h' := Option.some.inj h
                intro hnil
                exact hr (by rw [h', hnil])

/-- Claim C2, corrected. A model string that does not resolve to any
configured group does not fail with NotFound: routing yields the single
candidate `("local", None, model)` — whether or not a group named `local`
exists — and the request is served through it. The 404 branch fires only
on an empty candidate list, and the candidate list is never empty. -/
theorem c2_unresolved_model_corrected :
    (∀ (st : ConfigLoader.LoaderState) (rno : ConfigLoader.BackendC → String) (name : String),
       (ConfigLoader.get_model_config st name).1 = none →
       (Dispatch.get_backend_candidates st rno name).1 = [("local", none, name)]) ∧
    (∀ (st : ConfigLoader.LoaderState) (rno : ConfigLoader.BackendC → String) (name : String),
       (Dispatch.get_backend_candidates st rno name).1 ≠ []) := by
  constructor
  · intro st rno name h
    have hb := get_backends_none_of_unresolved st name h
    unfold Dispatch.get_backend_candidates
    rcases hgb : ConfigLoader.get_backends_for_model st name with ⟨bi, st1⟩
    rw [hgb] at hb
    simp only at hb
    subst hb
    rfl
  · intro st rno name
    unfold Dispatch.get_backend_candidates
    rcases hgb : ConfigLoader.get_backends_for_model st name with ⟨bi, st1⟩
    cases bi with
    | none => simp
    | some infos =>
        have hne := get_backends_some_ne_nil st name infos (by rw [hgb])
        simp only [ne_eq, List.map_eq_nil_iff]
        exact hne

/-- Witness for C2: a config with only a `deepseek` group (no `local`
group); an unknown model resolves to nothing yet still yields the local
candidate. -/
theorem c2_unresolved_model_witness :
    (ConfigLoader.get_model_config Fixtures.stDeepseek "nosuchmodel").1 = none ∧
    (Dispatch.get_backend_candidates Fixtures.stDeepseek Fixtures.rnoUrl "nosuchmodel").1
      = [("local", none, "nosuchmodel")] :=
  ⟨by rfl,
   c2_unresolved_model_corrected.1 Fixtures.stDeepseek Fixtures.rnoUrl "nosuchmodel" (by rfl)⟩

/-- Counterexample for C2 as stated: with no `local` group configured, the
unresolvable model `nosuchmodel` is not rejected with 404 — the inbound
dispatch serves it through the local candidate (rewritten to the mock
router because the local probe reports down). -/
theorem c2_notfound_counterexample :
    (Dispatch.get_backend_candidates Fixtures.stDeepseek Fixtures.rnoUrl "nosuchmodel").1
      = [("local", none, "nosuchmodel")] ∧
    Dispatch.endpointDispatch Fixtures.stDeepseek Fixtures.rnoUrl false Fixtures.attemptMock
        "nosuchmodel"
      = (.ok "mock-response", [("local", none, "nosuchmodel")]) :=
  ⟨by rfl, by rfl⟩

/-! ## Claim C1 -/

/-- Claim C1, corrected. The failover policy holds of the helper
`try_backend_request`: with three candidates whose first two attempts fail
before producing bytes and whose third succeeds, the result is the third
candidate's response and the attempt trace is exactly the three candidates
in configured order, each once. But the property does not extend to the
inbound endpoints: their dispatch uses only `candidates[0]`
(`get_backend_router_for_model`) and never attempts a later candidate. -/
theorem c1_failover_order_corrected {ε ρ : Type}
    (st : ConfigLoader.LoaderState) (rno : ConfigLoader.BackendC → String)
    (attempt : String → Option ConfigLoader.BackendC → String → Except ε ρ)
    (name : String) (cand1 cand2 cand3 : Dispatch.Candidate) (e1 e2 : ε) (r : ρ)
    (hc : (Dispatch.get_backend_candidates st rno name).1 = [cand1, cand2, cand3])
    (h1 : attempt (Dispatch.resolveRouterName true cand1.1) cand1.2.1 cand1.2.2 = .error e1)
    (h2 : attempt (Dispatch.resolveRouterName true cand2.1) cand2.2.1 cand2.2.2 = .error e2)
    (h3 : attempt (Dispatch.resolveRouterName true cand3.1) cand3.2.1 cand3.2.2 = .ok r) :
    Dispatch.try_backend_request st rno true attempt name = (.ok r, [cand1, cand2, cand3]) ∧
    (∀ (st' : ConfigLoader.LoaderState) (rno' : ConfigLoader.BackendC → String) (avail : Bool)
       (attempt' : String → Option ConfigLoader.BackendC → String → Except ε ρ)
       (name' : String) (cfirst : Dispatch.Candidate) (rest : List Dispatch.Candidate),
       (Dispatch.get_backend_candidates st' rno' name').1 = cfirst :: rest →
       (Dispatch.endpointDispatch st' rno' avail attempt' name').2 = [cfirst]) := by
  constructor
  · unfold Dispatch.try_backend_request
    rcases hgc : Dispatch.get_backend_candidates st rno name with ⟨cands, st1⟩
    rw [hgc] at hc
    simp only at hc
    subst hc
    simp [Dispatch.tryLoop, h1, h2, h3]
  · intro st' rno' avail attempt' name' cfirst rest hc'
    unfold Dispatch.endpointDispatch
    rcases hgc : Dispatch.get_backend_candidates st' rno' name' with ⟨cands, st1⟩
    rw [hgc] at hc'
    simp only at hc'
    subst hc'
    dsimp only
    split <;> rfl

/-- Witness for C1: three configured backends; the first two fail, the
third answers, and the trace is all three candidates in order. -/
theorem c1_failover_order_witness :
    (Dispatch.get_backend_candidates Fixtures.stThree Fixtures.rnoUrl "m").1
      = [("https://u1.example", some Fixtures.bk1, "am"),
         ("https://u2.example", some Fixtures.bk2, "am"),
         ("https://u3.example", some Fixtures.bk3, "am")] ∧
    Dispatch.try_backend_request Fixtures.stThree Fixtures.rnoUrl true Fixtures.attempt3 "m"
      = (.ok "resp3",
         [("https://u1.example", some Fixtures.bk1, "am"),
          ("https://u2.example", some Fixtures.bk2, "am"),
          ("https://u3.example", some Fixtures.bk3, "am")]) :=
  ⟨by rfl,
   (c1_failover_order_corrected Fixtures.stThree Fixtures.rnoUrl Fixtures.attempt3 "m"
      ("https://u1.example", some Fixtures.bk1, "am")
      ("https://u2.example", some Fixtures.bk2, "am")
      ("https://u3.example", some Fixtures.bk3, "am")
      "fail https://u1.example" "fail https://u2.example" "resp3"
      (by rfl) (by rfl) (by rfl) (by rfl)).1⟩

/-- Counterexample for C1 as stated: entering through the inbound endpoint,
a request whose first candidate fails is answered with a 500 after
attempting only that candidate, even though the second candidate would
have succeeded (as `try_backend_request` shows on the same inputs). -/
theorem c1_endpoint_no_failover_counterexample :
    Dispatch.endpointDispatch Fixtures.stTwo Fixtures.rnoUrl true Fixtures.attempt2 "m"
      = (.error (.http500 (some "boom")), [("https://u1.example", some Fixtures.bk1, "am")]) ∧
    Dispatch.try_backend_request Fixtures.stTwo Fixtures.rnoUrl true Fixtures.attempt2 "m"
      = (.ok "resp2",
         [("https://u1.example", some Fixtures.bk1, "am"),
          ("https://u2.example", some Fixtures.bk2, "am")]) :=
  ⟨by rfl, by rfl⟩

/-! ## Claim C8 -/

theorem load_models_preserve_aux
    (cfg : List (String × ConfigLoader.GroupCfg)) (g : String) :
    ∀ ms, assocGet cfg g = none →
      assocGet (cfg.foldl (fun ms gp => assocSet ms gp.1 gp.2) ms) g = assocGet ms g := by
  induction cfg with
  | nil => intro ms _; rfl
  | cons p rest ih =>
      intro ms h
      obtain ⟨g0, gc0⟩ := p
      simp only [assocGet] at h
      by_cases h0 : g0 = g
      · rw [if_pos h0] at h; cases h
      · rw [if_neg h0] at h
        simp only [List.foldl]
        rw [ih _ h, assocGet_assocSet_ne _ _ _ _ (fun he => h0 he.symm)]

theorem load_map_preserve_inner (g : String) (ams : List (String × String)) (k : String)
    (hk : ∀ mv ∈ ams, k ≠ mv.1 ∧ k ≠ g ++ "/" ++ mv.1) :
    ∀ mp, assocGet
        (ams.foldl (fun mp' mv => assocSet (assocSet mp' mv.1 g) (g ++ "/" ++ mv.1) g) mp) k
      = assocGet mp k := by
  induction ams with
  | nil => intro mp; rfl
  | cons mv rest ih =>
      intro mp
      simp only [List.foldl]
      rw [ih (fun x hx => hk x (List.mem_cons_of_mem _ hx))]
      obtain ⟨h1, h2⟩ := hk mv (List.mem_cons_self _ _)
      rw [assocGet_assocSet_ne _ _ _ _ h2, assocGet_assocSet_ne _ _ _ _ h1]

theorem load_map_preserve_aux
    (cfg : List (String × ConfigLoader.GroupCfg)) (k : String)
    (hk : ∀ gp ∈ cfg, ∀ mv ∈ gp.2.availableModels, k ≠ mv.1 ∧ k ≠ gp.1 ++ "/" ++ mv.1) :
    ∀ mp, assocGet
        (cfg.foldl (fun mp gp => gp.2.availableModels.foldl
          (fun mp' mv => assocSet (assocSet mp' mv.1 gp.1) (gp.1 ++ "/" ++ mv.1) gp.1) mp) mp) k
      = assocGet mp k := by
  induction cfg with
  | nil => intro mp; rfl
  | cons p rest ih =>
      intro mp
      simp only [List.foldl]
      rw [ih (fun x hx => hk x (List.mem_cons_of_mem _ hx))]
      exact load_map_preserve_inner p.1 p.2.availableModels k
        (hk p (List.mem_cons_self _ _)) mp

/-- Claim C8, corrected. After `load` the per-input resolver cache
(`_model_config_cache`) is empty, as claimed; but `load` does not clear
the previously loaded groups or the reverse index `_model_to_group_map`:
a group absent from the new config keeps its old `models` entry, and a
key the new config does not touch keeps its old reverse-index binding —
so resolution after a reload is not a function of the new config alone,
and results derived from the previous config can still be returned. -/
theorem c8_reload_cache_corrected :
    (∀ (st : ConfigLoader.LoaderState) (cfg : List (String × ConfigLoader.GroupCfg)),
       (ConfigLoader.load st cfg).modelConfigCache = []) ∧
    (∀ (st : ConfigLoader.LoaderState) (cfg : List (String × ConfigLoader.GroupCfg))
       (g : String), assocGet cfg g = none →
       assocGet (ConfigLoader.load st cfg).models g = assocGet st.models g) ∧
    (∀ (st : ConfigLoader.LoaderState) (cfg : List (String × ConfigLoader.GroupCfg))
       (k : String),
       (∀ gp ∈ cfg, ∀ mv ∈ gp.2.availableModels, k ≠ mv.1 ∧ k ≠ gp.1 ++ "/" ++ mv.1) →
       assocGet (ConfigLoader.load st cfg).modelToGroupMap k
         = assocGet st.modelToGroupMap k) := by
  refine ⟨?_, ?_, ?_⟩
  · intro st cfg
    rfl
  · intro st cfg g h
    exact load_models_preserve_aux cfg g st.models h
  · intro st cfg k hk
    exact load_map_preserve_aux cfg k hk st.modelToGroupMap

/-- Witness for C8: reloading `cfgNew` over the state from `cfgOld` leaves
the cache empty but preserves the stale group `g` and the stale
reverse-index binding of `m`. -/
theorem c8_reload_cache_witness :
    Fixtures.stReloaded.modelConfigCache = [] ∧
    assocGet Fixtures.stReloaded.models "g"
      = assocGet (ConfigLoader.load ConfigLoader.emptyState Fixtures.cfgOld).models "g" ∧
    assocGet Fixtures.stReloaded.modelToGroupMap "m"
      = assocGet (ConfigLoader.load ConfigLoader.emptyState Fixtures.cfgOld).modelToGroupMap
          "m" :=
  ⟨c8_reload_cache_corrected.1 (ConfigLoader.load ConfigLoader.emptyState Fixtures.cfgOld)
     Fixtures.cfgNew,
   c8_reload_cache_corrected.2.1 (ConfigLoader.load ConfigLoader.emptyState Fixtures.cfgOld)
     Fixtures.cfgNew "g" (by rfl),
   c8_reload_cache_corrected.2.2 (ConfigLoader.load ConfigLoader.emptyState Fixtures.cfgOld)
     Fixtures.cfgNew "m" (by decide)⟩

/-- Counterexample for C8 as stated: after reloading a config that no
longer contains group `g` or model `m`, resolving `m` still returns the
old group `g`, while a fresh loader holding only the new config resolves
`m` to nothing — resolution does not depend only on the currently loaded
config. -/
theorem c8_stale_resolution_counterexample :
    (ConfigLoader.get_model_config Fixtures.stReloaded "m").1 = some ("g", "m") ∧
    (ConfigLoader.get_model_config Fixtures.stFreshNew "m").1 = none :=
  ⟨by rfl, by rfl⟩
